import Mathlib

/-!
Verification of the data-processing core of the くらしいきいき accounting
dashboard (files `data_processing.py` and `app.py`).

Shallow embedding conventions:
* Python floats are `Option ℚ` where `none` stands for `NaN`/`None`
  (a missing value); values that the source guarantees to be real
  numbers are plain `ℚ`.
* Python truthiness on a float is `pyTruthy`: `NaN` is truthy,
  `0.0` is falsy, every other number is truthy.
* A guarded Python division `a / b if b else nan` is `ratioGuard`.
* pandas tables are lists of structures; a left merge is a `flatMap`
  over the left rows; `Series.shift(k)` is positional indexing into the
  sorted aggregate.
-/

set_option maxRecDepth 4000

/-- Python truthiness of a float value: `NaN` (here `none`) is truthy,
`0.0` is falsy, any other number is truthy. -/
def pyTruthy : Option ℚ → Bool
  | none => true
  | some q => decide (q ≠ 0)

/-- Division of Python floats: any operand `NaN` gives `NaN`.  Division by
an actual zero would raise in Python; it is modelled as `none` and shown
unreachable behind `pyTruthy` guards. -/
def pyDiv : Option ℚ → Option ℚ → Option ℚ
  | some a, some b => if b = 0 then none else some (a / b)
  | _, _ => none

/-- `numer / denom if denom else nan` — the guarded ratio idiom used by
`calculate_kpis` in `data_processing.py`. -/
def ratioGuard (numer denom : Option ℚ) : Option ℚ :=
  if pyTruthy denom then pyDiv numer denom else none

theorem ratioGuard_of_none (n : Option ℚ) : ratioGuard n none = none := by
  cases n <;> rfl

theorem ratioGuard_of_zero (n : Option ℚ) : ratioGuard n (some 0) = none := by
  simp [ratioGuard, pyTruthy]

/-- Inside the truthy branch the denominator is never an actual zero, so the
Python division can not raise `ZeroDivisionError`. -/
theorem pyTruthy_ne_some_zero (d : Option ℚ) (h : pyTruthy d = true) :
    d ≠ some 0 := by
  intro hd; subst hd; simp [pyTruthy] at h

/-! ## P&L simulation engine (`simulate_pl`, data_processing.py lines 545-574) -/

/-- The `base_pl` dict handed to `simulate_pl`; `base_pl.get(key, default)`
is modelled by `Option.getD`. -/
structure BasePL where
  sales : Option ℚ := none
  cogs : Option ℚ := none
  gross_profit : Option ℚ := none
  sga : Option ℚ := none
deriving DecidableEq, Repr

/-- One row of the table returned by `simulate_pl`
(columns 項目 / 現状 / シナリオ / 増減). -/
structure ScenarioRow where
  item : String
  current : ℚ
  scenario : ℚ
  delta : ℚ
deriving DecidableEq, Repr

/-- `simulate_pl(base_pl, sales_growth_rate, cost_rate_adjustment,
sga_change_rate, additional_ad_cost)` translated from
`data_processing.py`. -/
def simulate_pl (base_pl : BasePL) (sales_growth_rate : ℚ)
    (cost_rate_adjustment : ℚ) (sga_change_rate : ℚ)
    (additional_ad_cost : ℚ) : List ScenarioRow :=
  let current_sales := base_pl.sales.getD 0
  let current_cogs := base_pl.cogs.getD 0
  let current_sga := base_pl.sga.getD 0
  let current_gross := base_pl.gross_profit.getD (current_sales - current_cogs)
  let new_sales := current_sales * (1 + sales_growth_rate)
  let base_cost_ratio := if current_sales ≠ 0 then current_cogs / current_sales else 0
  let new_cost_ratio := max 0 (base_cost_ratio + cost_rate_adjustment)
  let new_cogs := new_sales * new_cost_ratio
  let new_gross := new_sales - new_cogs
  let new_sga := current_sga * (1 + sga_change_rate) + additional_ad_cost
  let new_operating_profit := new_gross - new_sga
  let rows : List (String × ℚ × ℚ) :=
    [("売上高", current_sales, new_sales),
     ("売上原価", current_cogs, new_cogs),
     ("粗利", current_gross, new_gross),
     ("販管費", current_sga, new_sga),
     ("営業利益", current_gross - current_sga, new_operating_profit)]
  rows.map fun r => { item := r.1, current := r.2.1, scenario := r.2.2, delta := r.2.2 - r.2.1 }

/-! ## Cash-flow forecast engine (`forecast_cashflow`, data_processing.py lines 608-629) -/

/-- A row of the cash-flow plan table; `row.get(col, 0.0)` is `Option.getD 0`. -/
structure PlanRow where
  month : Int
  operating_cf : Option ℚ := none
  investment_cf : Option ℚ := none
  financing_cf : Option ℚ := none
  loan_repayment : Option ℚ := none
deriving DecidableEq, Repr

/-- A row of the forecast result (`month`, `net_cf`, `cash_balance`). -/
structure ForecastRow where
  month : Int
  net_cf : ℚ
  cash_balance : ℚ
deriving DecidableEq, Repr

/-- Per-row net cash flow:
`operating_cf + financing_cf - investment_cf - loan_repayment`. -/
def rowNetCF (row : PlanRow) : ℚ :=
  row.operating_cf.getD 0 + row.financing_cf.getD 0
    - row.investment_cf.getD 0 - row.loan_repayment.getD 0

/-- The sequential accumulation loop of `forecast_cashflow`. -/
def forecastFrom (cash : ℚ) : List PlanRow → List ForecastRow
  | [] => []
  | row :: rest =>
      let net_cf := rowNetCF row
      let cash' := cash + net_cf
      { month := row.month, net_cf := net_cf, cash_balance := cash' } :: forecastFrom cash' rest

/-- `forecast_cashflow(plan_df, starting_cash)` translated from
`data_processing.py`: a strictly sequential fold over the plan rows. -/
def forecast_cashflow (plan_df : List PlanRow) (starting_cash : ℚ) : List ForecastRow :=
  forecastFrom starting_cash plan_df

/-! ## Cost-table normalization (`load_cost_workbook`, data_processing.py lines 165-196)

Only the pure normalization applied after the spreadsheet has been parsed is
embedded; raw cells that failed `pd.to_numeric(..., errors="coerce")` arrive
as `none` (`NaN`). -/

/-- A raw cost row after `pd.to_numeric` coercion: text columns may be
missing, numeric columns are `NaN` (`none`) when absent or unparseable. -/
structure RawCostRow where
  product_code : Option String := none
  product_name : Option String := none
  category : Option String := none
  price : Option ℚ := none
  cost : Option ℚ := none
  cost_rate : Option ℚ := none
deriving DecidableEq, Repr

/-- A normalized cost row as produced by `load_cost_workbook`. -/
structure CostRow where
  product_code : String
  product_name : String
  category : String
  price : Option ℚ
  cost : Option ℚ
  cost_rate : Option ℚ
  gross_margin_rate : Option ℚ
deriving DecidableEq, Repr

/-- `row["cost"] / row["price"] if row["price"] else np.nan` — the fallback
used when `load_cost_workbook` recomputes the `cost_rate` column. -/
def costOverPrice (row : RawCostRow) : Option ℚ :=
  if pyTruthy row.price then pyDiv row.cost row.price else none

/-- The normalization body of `load_cost_workbook`: fill the text defaults,
and — whenever at least one `cost_rate` cell is `NaN` — overwrite the whole
`cost_rate` column with `cost / price`; finally attach
`gross_margin_rate = 1 - cost_rate.fillna(0)`. -/
def load_cost_workbook (rows : List RawCostRow) : List CostRow :=
  let anyMissing := rows.any fun r => r.cost_rate.isNone
  rows.map fun r =>
    let rate := if anyMissing then costOverPrice r else r.cost_rate
    { product_code := r.product_code.getD "NA"
      product_name := r.product_name.getD "不明商品"
      category := r.category.getD "未分類"
      price := r.price
      cost := r.cost
      cost_rate := rate
      gross_margin_rate := some (1 - rate.getD 0) }

/-! ## Merge & enrichment engine (`merge_sales_and_costs`, data_processing.py lines 256-281) -/

/-- A normalized sales row (`normalize_sales_df` output); only the columns
read by the merge / aggregation / KPI code are kept. -/
structure SalesRow where
  order_month : Int
  channel : String
  product_code : String
  product_name : String
  sales_amount : ℚ
deriving DecidableEq, Repr

/-- A cost table handed to `merge_sales_and_costs`: its rows plus whether the
frame has a `product_code` column at all (`"product_code" in cost_df.columns`). -/
structure CostTable where
  hasCodeColumn : Bool := true
  rows : List CostRow
deriving DecidableEq, Repr

/-- The fixed channel-fee-rate table `DEFAULT_CHANNEL_FEE_RATES`. -/
def DEFAULT_CHANNEL_FEE_RATES (channel : String) : Option ℚ :=
  if channel = "自社サイト" then some (3/100)
  else if channel = "楽天市場" then some (12/100)
  else if channel = "Amazon" then some (15/100)
  else if channel = "Yahoo!ショッピング" then some (10/100)
  else none

/-- Which column the left merge joins on. -/
inductive JoinKey | code | name
deriving DecidableEq, Repr

/-- The join-key selection of `merge_sales_and_costs`:
`join_keys = ["product_code"] if "product_code" in cost_df.columns else []`,
then fall back to `["product_name"]` when the key list is empty or the whole
`product_code` column is the sentinel `"NA"`. -/
def selectJoinKey (cost_df : CostTable) : JoinKey :=
  if cost_df.hasCodeColumn then
    if cost_df.rows.all (fun c => c.product_code = "NA") then JoinKey.name
    else JoinKey.code
  else JoinKey.name

/-- Whether a cost row matches a sales row under the selected join key. -/
def joinMatches (key : JoinKey) (s : SalesRow) (c : CostRow) : Bool :=
  match key with
  | JoinKey.code => s.product_code = c.product_code
  | JoinKey.name => s.product_name = c.product_name

/-- An output row of `merge_sales_and_costs`. -/
structure MergedRow where
  order_month : Int
  channel : String
  product_code : String
  product_name : String
  sales_amount : ℚ
  price : Option ℚ
  cost : Option ℚ
  cost_rate : ℚ
  gross_margin_rate : ℚ
  estimated_cost : ℚ
  gross_profit : ℚ
  channel_fee : ℚ
  channel_fee_amount : ℚ
  net_gross_profit : ℚ
deriving DecidableEq, Repr

/-- Build one output row of `merge_sales_and_costs` from a sales row and the
cost row it matched (`none` when the left join found no match, or the cost
table was empty): `cost_rate.fillna(0.3).clip(0, 0.95)`,
`gross_margin_rate.fillna(1 - cost_rate)`, then the derived amounts. -/
def enrichRow (s : SalesRow) (c : Option CostRow) : MergedRow :=
  let rate0 : Option ℚ := match c with
    | some c => c.cost_rate
    | none => none
  let gmr0 : Option ℚ := match c with
    | some c => c.gross_margin_rate
    | none => none
  let cost_rate := min (max (rate0.getD (3/10)) 0) (95/100)
  let gross_margin_rate := gmr0.getD (1 - cost_rate)
  let estimated_cost := s.sales_amount * cost_rate
  let gross_profit := s.sales_amount - estimated_cost
  let channel_fee := (DEFAULT_CHANNEL_FEE_RATES s.channel).getD 0
  let channel_fee_amount := s.sales_amount * channel_fee
  { order_month := s.order_month
    channel := s.channel
    product_code := s.product_code
    product_name := s.product_name
    sales_amount := s.sales_amount
    price := c.bind (fun c => c.price)
    cost := c.bind (fun c => c.cost)
    cost_rate := cost_rate
    gross_margin_rate := gross_margin_rate
    estimated_cost := estimated_cost
    gross_profit := gross_profit
    channel_fee := channel_fee
    channel_fee_amount := channel_fee_amount
    net_gross_profit := gross_profit - channel_fee_amount }

/-- `merge_sales_and_costs(sales_df, cost_df)` translated from
`data_processing.py`: an empty cost table assigns all-`NaN` cost columns,
otherwise a left merge on the selected key (each sales row is replicated per
matching cost row, in cost-table order; an unmatched row survives once with
`NaN` cost columns). -/
def merge_sales_and_costs (sales_df : List SalesRow) (cost_df : CostTable) :
    List MergedRow :=
  if cost_df.rows.isEmpty then
    sales_df.map fun s => enrichRow s none
  else
    let key := selectJoinKey cost_df
    sales_df.flatMap fun s =>
      let ms := cost_df.rows.filter (joinMatches key s)
      if ms.isEmpty then [enrichRow s none]
      else ms.map fun c => enrichRow s (some c)

/-! ## KPI derivation engine (`calculate_kpis`, data_processing.py lines 337-410) -/

/-- A normalized subscription/KPI row (`load_subscription_workbook` output);
each numeric column is `NaN`-able. -/
structure SubRow where
  month : Int
  active_customers : Option ℚ := none
  previous_active_customers : Option ℚ := none
  new_customers : Option ℚ := none
  repeat_customers : Option ℚ := none
  cancelled_subscriptions : Option ℚ := none
  marketing_cost : Option ℚ := none
  ltv : Option ℚ := none
  total_sales : Option ℚ := none
deriving DecidableEq, Repr

/-- The `overrides` dict of `calculate_kpis`: the outer `Option` is key
presence in the dict, the inner one the value itself (which may be `NaN`). -/
structure Overrides where
  active_customers : Option (Option ℚ) := none
  new_customers : Option (Option ℚ) := none
  repeat_customers : Option (Option ℚ) := none
  cancelled_subscriptions : Option (Option ℚ) := none
  previous_active_customers : Option (Option ℚ) := none
  marketing_cost : Option (Option ℚ) := none
  ltv : Option (Option ℚ) := none
deriving DecidableEq, Repr

/-- `overrides.get(key, default)` where `default` comes from the matched
subscription row (or `NaN` when there is none). -/
def resolveKpiField (override : Option (Option ℚ)) (subValue : Option ℚ) : Option ℚ :=
  match override with
  | some v => v
  | none => subValue

/-- The seven subscription-derived inputs of `calculate_kpis`, after
override resolution. -/
structure ResolvedInputs where
  active_customers : Option ℚ
  new_customers : Option ℚ
  repeat_customers : Option ℚ
  cancelled : Option ℚ
  prev_active : Option ℚ
  marketing_cost : Option ℚ
  ltv_value : Option ℚ
deriving DecidableEq, Repr

/-- Resolution of the subscription-derived inputs for a month: the first
subscription row whose `month` matches supplies the defaults, each of which
an entry of `overrides` takes precedence over. -/
def resolvedSubInputs (subscription_df : List SubRow) (month : Int)
    (overrides : Overrides) : ResolvedInputs :=
  let sub_row := subscription_df.find? fun r => r.month = month
  let subVal := fun (f : SubRow → Option ℚ) =>
    match sub_row with
    | some r => f r
    | none => none
  { active_customers :=
      resolveKpiField overrides.active_customers (subVal (fun r => r.active_customers))
    new_customers :=
      resolveKpiField overrides.new_customers (subVal (fun r => r.new_customers))
    repeat_customers :=
      resolveKpiField overrides.repeat_customers (subVal (fun r => r.repeat_customers))
    cancelled :=
      resolveKpiField overrides.cancelled_subscriptions
        (subVal (fun r => r.cancelled_subscriptions))
    prev_active :=
      resolveKpiField overrides.previous_active_customers
        (subVal (fun r => r.previous_active_customers))
    marketing_cost :=
      resolveKpiField overrides.marketing_cost (subVal (fun r => r.marketing_cost))
    ltv_value := resolveKpiField overrides.ltv (subVal (fun r => r.ltv)) }

/-- `merged_df["order_month"].max()` over a non-empty frame. -/
def maxOrderMonth (merged_df : List MergedRow) : Int :=
  (merged_df.map (fun r => r.order_month)).foldl max
    ((merged_df.map (fun r => r.order_month)).headD 0)

/-- The month slice `merged_df[merged_df["order_month"] == month]`. -/
def monthSlice (merged_df : List MergedRow) (month : Int) : List MergedRow :=
  merged_df.filter fun r => r.order_month = month

/-- The month `calculate_kpis` reports on: the caller's `month` argument,
defaulting to `merged_df["order_month"].max()`. -/
def kpiMonth (merged_df : List MergedRow) (month? : Option Int) : Int :=
  month?.getD (maxOrderMonth merged_df)

/-- `monthly_df["sales_amount"].sum()`. -/
def monthlySales (merged_df : List MergedRow) (month : Int) : ℚ :=
  ((monthSlice merged_df month).map fun r => r.sales_amount).sum

/-- `monthly_df["net_gross_profit"].sum()` — the quantity the source binds to
`monthly_gross_profit`. -/
def monthlyNetGross (merged_df : List MergedRow) (month : Int) : ℚ :=
  ((monthSlice merged_df month).map fun r => r.net_gross_profit).sum

/-- The KPI dict returned by `calculate_kpis`. -/
structure KPISnapshot where
  month : Int
  sales : ℚ
  gross_profit : ℚ
  active_customers : Option ℚ
  new_customers : Option ℚ
  repeat_customers : Option ℚ
  cancelled_subscriptions : Option ℚ
  marketing_cost : Option ℚ
  ltv : Option ℚ
  arpu : Option ℚ
  repeat_rate : Option ℚ
  churn_rate : Option ℚ
  roas : Option ℚ
  adv_ratio : Option ℚ
  gross_margin_rate : Option ℚ
  cac : Option ℚ
deriving DecidableEq, Repr

/-- `calculate_kpis(merged_df, subscription_df, month, overrides)` translated
from `data_processing.py`; the empty dict returned for an empty frame is
`none`.  `monthly_sales` sums `sales_amount` and — as in the source —
`monthly_gross_profit` sums the `net_gross_profit` column of the month
slice. -/
def calculate_kpis (merged_df : List MergedRow) (subscription_df : List SubRow)
    (month? : Option Int) (overrides : Overrides) : Option KPISnapshot :=
  if merged_df.isEmpty then none
  else
    let month := kpiMonth merged_df month?
    let monthly_sales := monthlySales merged_df month
    let monthly_gross_profit := monthlyNetGross merged_df month
    let ri := resolvedSubInputs subscription_df month overrides
    some
      { month := month
        sales := monthly_sales
        gross_profit := monthly_gross_profit
        active_customers := ri.active_customers
        new_customers := ri.new_customers
        repeat_customers := ri.repeat_customers
        cancelled_subscriptions := ri.cancelled
        marketing_cost := ri.marketing_cost
        ltv := ri.ltv_value
        arpu := ratioGuard (some monthly_sales) ri.active_customers
        repeat_rate := ratioGuard ri.repeat_customers ri.active_customers
        churn_rate := ratioGuard ri.cancelled ri.prev_active
        roas := ratioGuard (some monthly_sales) ri.marketing_cost
        adv_ratio := ratioGuard ri.marketing_cost (some monthly_sales)
        gross_margin_rate := ratioGuard (some monthly_gross_profit) (some monthly_sales)
        cac := ratioGuard ri.marketing_cost ri.new_customers }

/-! ## Period aggregation engine (`summarize_sales_by_period`, app.py lines 2869-2944)

`df["order_date"].dt.to_period(freq)` is embedded as `toPeriod` on calendar
dates: months, quarters and years are numbered consecutively; weeks are
numbered by dividing a civil day count by 7 (the exact weekday on which a
`W-MON` bucket closes is immaterial to every property proved here, which
only concern the positional `shift` over the sorted buckets). -/

/-- A calendar date (y/m/d). -/
structure CalDate where
  y : Nat
  m : Nat
  d : Nat
deriving DecidableEq, Repr

/-- The four period frequencies offered by `PERIOD_FREQ_OPTIONS` in `app.py`
("M", "W-MON", "Q", "Y"). -/
inductive Freq | M | WMON | Q | Y
deriving DecidableEq, Repr

/-- `PERIOD_YOY_LAG` from `app.py`: buckets per year for each granularity. -/
def PERIOD_YOY_LAG : Freq → Nat
  | Freq.M => 12
  | Freq.WMON => 52
  | Freq.Q => 4
  | Freq.Y => 1

/-- A civil day count (days since 0000-03-01, standard era arithmetic),
used only to assign week numbers. -/
def daysFromCivil (date : CalDate) : Nat :=
  let y := if date.m ≤ 2 then date.y - 1 else date.y
  let era := y / 400
  let yoe := y - era * 400
  let mp := (date.m + 9) % 12
  let doy := (153 * mp + 2) / 5 + date.d - 1
  let doe := yoe * 365 + yoe / 4 - yoe / 100 + doy
  era * 146097 + doe

/-- `order_date.dt.to_period(freq)` as a totally ordered bucket number. -/
def toPeriod (freq : Freq) (date : CalDate) : Nat :=
  match freq with
  | Freq.M => date.y * 12 + (date.m - 1)
  | Freq.Q => date.y * 4 + (date.m - 1) / 3
  | Freq.Y => date.y
  | Freq.WMON => daysFromCivil date / 7

/-- Insert into an ascending list, keeping it ascending. -/
def insertAsc (x : Nat) : List Nat → List Nat
  | [] => [x]
  | y :: ys => if x ≤ y then x :: y :: ys else y :: insertAsc x ys

/-- The distinct keys of a list, in ascending order (the index of the frame
produced by `groupby(...).sum().sort_values("period")`). -/
def distinctAsc (l : List Nat) : List Nat :=
  l.foldr (fun x acc => if x ∈ acc then acc else insertAsc x acc) []

/-- An enriched row as consumed by `summarize_sales_by_period` (the columns
it reads). -/
structure PeriodInputRow where
  order_date : CalDate
  sales_amount : ℚ
  gross_profit : ℚ
  net_gross_profit : ℚ
deriving DecidableEq, Repr

/-- An output row of `summarize_sales_by_period` (the presentation columns
`period_start`/`period_end`/`period_label` are omitted). -/
structure SummaryRow where
  period : Nat
  sales_amount : ℚ
  gross_profit : ℚ
  net_gross_profit : ℚ
  prev_period_sales : Option ℚ
  sales_mom : Option ℚ
  prev_year_sales : Option ℚ
  sales_yoy : Option ℚ
  prev_period_gross : Option ℚ
  gross_mom : Option ℚ
  prev_year_gross : Option ℚ
  gross_yoy : Option ℚ
deriving DecidableEq, Repr

/-- `np.where(prev.notna() & (prev != 0), (cur - prev) / prev, np.nan)`. -/
def fracDelta (cur : ℚ) (prev : Option ℚ) : Option ℚ :=
  match prev with
  | some p => if p ≠ 0 then some ((cur - p) / p) else none
  | none => none

/-- Sum of a column over the rows of one bucket. -/
def bucketSum (rows : List PeriodInputRow) (freq : Freq) (k : Nat)
    (col : PeriodInputRow → ℚ) : ℚ :=
  ((rows.filter fun r => toPeriod freq r.order_date = k).map col).sum

/-- The summary row at position `i` of the sorted bucket list `keys`:
column sums for bucket `keys[i]`, positional `shift(1)` values from
position `i - 1` and positional `shift(PERIOD_YOY_LAG[freq])` values from
position `i - lag` (the source's `if yoy_lag:` guard is kept). -/
def summaryRowAt (df : List PeriodInputRow) (freq : Freq) (keys : List Nat)
    (i : Nat) : SummaryRow :=
  let salesAt := fun (j : Nat) =>
    bucketSum df freq (keys.getD j 0) (fun r => r.sales_amount)
  let grossAt := fun (j : Nat) =>
    bucketSum df freq (keys.getD j 0) (fun r => r.gross_profit)
  let netAt := fun (j : Nat) =>
    bucketSum df freq (keys.getD j 0) (fun r => r.net_gross_profit)
  let yoy_lag := PERIOD_YOY_LAG freq
  let prev_period_sales := if 1 ≤ i then some (salesAt (i - 1)) else none
  let prev_year_sales :=
    if yoy_lag ≠ 0 then
      (if yoy_lag ≤ i then some (salesAt (i - yoy_lag)) else none)
    else none
  let prev_period_gross := if 1 ≤ i then some (netAt (i - 1)) else none
  let prev_year_gross :=
    if yoy_lag ≠ 0 then
      (if yoy_lag ≤ i then some (netAt (i - yoy_lag)) else none)
    else none
  { period := keys.getD i 0
    sales_amount := salesAt i
    gross_profit := grossAt i
    net_gross_profit := netAt i
    prev_period_sales := prev_period_sales
    sales_mom := fracDelta (salesAt i) prev_period_sales
    prev_year_sales := prev_year_sales
    sales_yoy := fracDelta (salesAt i) prev_year_sales
    prev_period_gross := prev_period_gross
    gross_mom := fracDelta (netAt i) prev_period_gross
    prev_year_gross := prev_year_gross
    gross_yoy := fracDelta (netAt i) prev_year_gross }

/-- `summarize_sales_by_period(df, freq)` translated from `app.py`:
group by `to_period(freq)`, sum, sort ascending by period, then positional
`shift` columns per `summaryRowAt`.  The empty-frame early return
yields `[]`. -/
def summarize_sales_by_period (df : List PeriodInputRow) (freq : Freq) :
    List SummaryRow :=
  if df.isEmpty then []
  else
    (List.range (distinctAsc (df.map fun r => toPeriod freq r.order_date)).length).map
      (summaryRowAt df freq (distinctAsc (df.map fun r => toPeriod freq r.order_date)))

/-! ## Alert rule engine (`build_alerts`, data_processing.py lines 632-667) -/

/-- The threshold dict of `build_alerts`. -/
structure Thresholds where
  revenue_drop_pct : ℚ
  churn_rate : ℚ
  gross_margin_rate : ℚ
  cash_balance : ℚ
deriving DecidableEq, Repr

/-- `thresholds or {...}` — the fixed defaults. -/
def defaultThresholds : Thresholds :=
  { revenue_drop_pct := 3/10
    churn_rate := 5/100
    gross_margin_rate := 6/10
    cash_balance := 0 }

/-- The KPI values `build_alerts` reads from `kpi_summary`
(`kpi_summary.get(key)`); an empty or missing dict is both fields `none`,
and a `NaN` value behaves exactly like `none` in every comparison below. -/
structure KpiAlertView where
  churn_rate : Option ℚ := none
  gross_margin_rate : Option ℚ := none
deriving DecidableEq, Repr

/-- One alert message; the source renders these as formatted Japanese
strings, whose payload (the embedded percentage) is kept here. -/
inductive Alert
  | revenueDrop (drop_pct : ℚ)
  | highChurn (rate : ℚ)
  | lowMargin (rate : ℚ)
  | cashShortfall
deriving DecidableEq, Repr

/-- Minimum of the `cash_balance` column of a non-empty forecast. -/
def minCashBalance (forecast : List ForecastRow) : ℚ :=
  (forecast.map fun r => r.cash_balance).foldl min
    ((forecast.map fun r => r.cash_balance).headD 0)

/-- `build_alerts(monthly_summary, kpi_summary, cashflow_forecast,
thresholds)` translated from `data_processing.py`.  `monthly_summary` is the
`sales_amount` column of the monthly summary (a `None` frame behaves as the
empty list).  Note the Python truthiness guards: the revenue check is
skipped when the previous month's sales are `0`, and the churn / margin
checks are skipped when the rate is `0` (or `NaN`/missing, i.e. `none`). -/
def build_alerts (monthly_summary : List ℚ) (kpi_summary : KpiAlertView)
    (cashflow_forecast : List ForecastRow) (thresholds? : Option Thresholds) :
    List Alert :=
  let thresholds := thresholds?.getD defaultThresholds
  let revenue :=
    if 2 ≤ monthly_summary.length then
      let latest := monthly_summary.getD (monthly_summary.length - 1) 0
      let prev := monthly_summary.getD (monthly_summary.length - 2) 0
      if prev ≠ 0 ∧ latest < prev * (1 - thresholds.revenue_drop_pct) then
        [Alert.revenueDrop ((latest - prev) / prev)]
      else []
    else []
  let churn :=
    match kpi_summary.churn_rate with
    | some c => if c ≠ 0 ∧ thresholds.churn_rate < c then [Alert.highChurn c] else []
    | none => []
  let margin :=
    match kpi_summary.gross_margin_rate with
    | some g => if g ≠ 0 ∧ g < thresholds.gross_margin_rate then [Alert.lowMargin g] else []
    | none => []
  let cash :=
    if ¬ cashflow_forecast.isEmpty ∧ minCashBalance cashflow_forecast < thresholds.cash_balance then
      [Alert.cashShortfall]
    else []
  revenue ++ churn ++ margin ++ cash

/-! ## Validation report (`ValidationReport.add_duplicates`)

Modelled from the spec: the `ValidationReport` class (with `add_message` and
`add_duplicates`) is imported by `app.py` from `data_processing` but its
definition is not part of the sources under review; the model follows §3/§4.2
of the spec — an ordered message list plus a `duplicate_rows` table to which
`add_duplicates` appends only rows not already recorded (deduplication by row
identity). -/

/-- A duplicate sales row as recorded by the validation engine (the identity
used by duplicate detection: channel, product, date, customer, amount). -/
structure DupRow where
  channel : String
  product_code : String
  product_name : String
  order_date : Int
  customer_id : String
  sales_amount : ℚ
deriving DecidableEq, Repr

/-- A validation message (level, text, optional count, optional sample). -/
structure ValidationMessage where
  level : String
  message : String
  count : Option Nat := none
  sample : List DupRow := []
deriving DecidableEq, Repr

/-- Modelled from the spec: `ValidationReport` — an ordered sequence of
messages plus a deduplicated table of duplicate rows. -/
structure ValidationReport where
  messages : List ValidationMessage := []
  duplicate_rows : List DupRow := []
deriving DecidableEq, Repr

/-- Modelled from the spec: `add_message(level, text, count?, sample?)`
appends one message. -/
def add_message (report : ValidationReport) (level text : String)
    (count : Option Nat := none) (sample : List DupRow := []) : ValidationReport :=
  { report with
      messages := report.messages ++
        [{ level := level, message := text, count := count, sample := sample }] }

/-- Modelled from the spec: `add_duplicates(rows)` appends the rows that are
not already recorded in `duplicate_rows` (dedup by identity). -/
def add_duplicates (report : ValidationReport) (rows : List DupRow) : ValidationReport :=
  { report with
      duplicate_rows := report.duplicate_rows ++
        rows.filter fun r => decide ¬ (r ∈ report.duplicate_rows) }

/-! ## Theorems -/

/-- Placeholder rows used as `List.getD` defaults (the indices used are
always in range). -/
def dummyForecastRow : ForecastRow := { month := 0, net_cf := 0, cash_balance := 0 }

/-- Placeholder summary row used as a `List.getD` default. -/
def dummySummaryRow : SummaryRow :=
  { period := 0, sales_amount := 0, gross_profit := 0, net_gross_profit := 0
    prev_period_sales := none, sales_mom := none, prev_year_sales := none
    sales_yoy := none, prev_period_gross := none, gross_mom := none
    prev_year_gross := none, gross_yoy := none }

/-- C8: `simulate_pl` computes the scenario P&L by the spec's formulas —
newSales = baseSales×(1+growth), newCostRatio = max(0, baseCOGS/baseSales +
adj) (ratio 0 when baseSales = 0), newCOGS = newSales×newCostRatio, newGross
= newSales − newCOGS, newSGA = baseSGA×(1+sgaChange) + extraAd, operating
profit = newGross − newSGA — and the spec's baseline
{sales 1,000,000; COGS 300,000; gross 700,000; SG&A 500,000} with 10% growth
yields scenario sales 1,100,000, COGS 330,000, gross 770,000, SG&A 500,000,
operating profit 270,000 and an operating-profit delta of +70,000 over the
baseline's 200,000. -/
theorem simulate_pl_formulas :
    (∀ (base_pl : BasePL) (growth adj sgaChange extraAd : ℚ),
      ((simulate_pl base_pl growth adj sgaChange extraAd).map
          fun r => (r.scenario, r.delta)) =
        (let baseSales := base_pl.sales.getD 0
         let baseCOGS := base_pl.cogs.getD 0
         let baseSGA := base_pl.sga.getD 0
         let baseGross := base_pl.gross_profit.getD (baseSales - baseCOGS)
         let baseCostRatio := if baseSales ≠ 0 then baseCOGS / baseSales else 0
         let newSales := baseSales * (1 + growth)
         let newCostRatio := max 0 (baseCostRatio + adj)
         let newCOGS := newSales * newCostRatio
         let newGross := newSales - newCOGS
         let newSGA := baseSGA * (1 + sgaChange) + extraAd
         let newOperatingProfit := newGross - newSGA
         [(newSales, newSales - baseSales), (newCOGS, newCOGS - baseCOGS),
          (newGross, newGross - baseGross), (newSGA, newSGA - baseSGA),
          (newOperatingProfit, newOperatingProfit - (baseGross - baseSGA))]))
    ∧ ((simulate_pl ⟨some 1000000, some 300000, some 700000, some 500000⟩
          (1/10) 0 0 0).map fun r => (r.current, r.scenario, r.delta)) =
        [(1000000, 1100000, 100000), (300000, 330000, 30000),
         (700000, 770000, 70000), (500000, 500000, 0),
         (200000, 270000, 70000)] := by
  constructor
  · intro base_pl growth adj sgaChange extraAd
    rfl
  · norm_num [simulate_pl]

/-- C7: recording the same duplicate set twice leaves `duplicate_rows`
unchanged after the second call (`add_duplicates` is idempotent). -/
theorem add_duplicates_idempotent (report : ValidationReport) (rows : List DupRow) :
    add_duplicates (add_duplicates report rows) rows = add_duplicates report rows := by
  have h : (rows.filter fun r =>
      decide ¬ (r ∈ report.duplicate_rows ++
        rows.filter fun r => decide ¬ (r ∈ report.duplicate_rows))) = [] := by
    apply List.filter_eq_nil_iff.mpr
    intro a ha
    simp only [decide_not, Bool.not_eq_true', decide_eq_false_iff_not, not_not]
    by_cases hmem : a ∈ report.duplicate_rows
    · exact List.mem_append_left _ hmem
    · exact List.mem_append_right _ (List.mem_filter.mpr ⟨ha, by simp [hmem]⟩)
  simp only [add_duplicates] at h ⊢
  rw [h, List.append_nil]

/-- Cost table exercising the `cost_rate` recomputation of
`load_cost_workbook`: row A arrives with the explicit rate 0.24 (and
cost/price = 59/118 = 0.5), row B arrives without a rate. -/
def c4CostRaw : List RawCostRow :=
  [{ product_code := some "A", product_name := some "商品A",
     price := some 118, cost := some 59, cost_rate := some (24/100) },
   { product_code := some "B", product_name := some "商品B",
     price := some 100, cost := some 30 }]

/-- C4 (failing input): because row B's `cost_rate` is missing,
`load_cost_workbook` recomputes the whole column from `cost / price`, so row
A's explicit 0.24 is overwritten with 0.5 instead of being kept. -/
theorem load_cost_workbook_overwrites_explicit_rate :
    ((load_cost_workbook c4CostRaw).map fun r => r.cost_rate) =
        [some (1/2), some (3/10)]
      ∧ some ((1 : ℚ)/2) ≠ some ((24 : ℚ)/100)
      ∧ ((load_cost_workbook [c4CostRaw.headD {}]).map fun r => r.cost_rate) =
        [some (24/100)] := by
  refine ⟨?_, by norm_num, ?_⟩
  · norm_num [load_cost_workbook, c4CostRaw, costOverPrice, pyTruthy, pyDiv]
  · norm_num [load_cost_workbook, c4CostRaw, costOverPrice, pyTruthy, pyDiv]

/-- The running balances the spec demands: for row `i`, the opening balance
plus the net cash flows of rows `0..i`. -/
def specCashBalances (starting_cash : ℚ) (plan : List PlanRow) : List ℚ :=
  (List.range plan.length).map fun i =>
    starting_cash + ((plan.take (i + 1)).map rowNetCF).sum

theorem specCashBalances_cons (cash : ℚ) (row : PlanRow) (rest : List PlanRow) :
    specCashBalances cash (row :: rest) =
      (cash + rowNetCF row) :: specCashBalances (cash + rowNetCF row) rest := by
  simp only [specCashBalances, List.length_cons, List.range_succ_eq_map,
    List.map_cons, List.map_map, List.take_succ_cons, List.sum_cons]
  refine List.cons_eq_cons.mpr ⟨by simp, ?_⟩
  apply List.map_congr_left
  intro i _
  simp [add_assoc]

theorem forecastFrom_map_net (cash : ℚ) (plan : List PlanRow) :
    (forecastFrom cash plan).map (fun r => r.net_cf) = plan.map rowNetCF := by
  induction plan generalizing cash with
  | nil => rfl
  | cons row rest ih => simp [forecastFrom, ih]

theorem forecastFrom_map_month (cash : ℚ) (plan : List PlanRow) :
    (forecastFrom cash plan).map (fun r => r.month) = plan.map (fun r => r.month) := by
  induction plan generalizing cash with
  | nil => rfl
  | cons row rest ih => simp [forecastFrom, ih]

theorem forecastFrom_map_cash (cash : ℚ) (plan : List PlanRow) :
    (forecastFrom cash plan).map (fun r => r.cash_balance) = specCashBalances cash plan := by
  induction plan generalizing cash with
  | nil => rfl
  | cons row rest ih =>
      rw [specCashBalances_cons]
      simp [forecastFrom, ih]

theorem forecastFrom_zero_net (cash : ℚ) (plan : List PlanRow)
    (hz : ∀ row ∈ plan, rowNetCF row = 0) :
    ∀ fr ∈ forecastFrom cash plan, fr.cash_balance = cash := by
  induction plan generalizing cash with
  | nil => intro fr hfr; simp [forecastFrom] at hfr
  | cons row rest ih =>
      intro fr hfr
      have hrow : rowNetCF row = 0 := hz row (List.mem_cons_self row rest)
      simp only [forecastFrom, hrow, add_zero, List.mem_cons] at hfr
      rcases hfr with hfr | hfr
      · rw [hfr]
      · exact ih cash (fun r hr => hz r (List.mem_cons_of_mem _ hr)) fr hfr

/-- C9: `forecast_cashflow` is the strictly sequential left fold over the
plan rows in the given order: per row,
`net_cf = operating_cf + financing_cf − investment_cf − loan_repayment`
(missing columns read as 0), `cash_balance` is the opening balance plus the
net cash flows of all rows up to and including the current one, and the
month column is passed through; consequently, when every row's net cash
flow is 0, every forecast row's balance equals the opening balance. -/
theorem forecast_cashflow_fold_spec (plan : List PlanRow) (starting_cash : ℚ) :
    (forecast_cashflow plan starting_cash).map (fun r => r.net_cf) = plan.map rowNetCF
    ∧ (forecast_cashflow plan starting_cash).map (fun r => r.month) =
        plan.map (fun r => r.month)
    ∧ (forecast_cashflow plan starting_cash).map (fun r => r.cash_balance) =
        specCashBalances starting_cash plan
    ∧ ((∀ row ∈ plan, rowNetCF row = 0) →
        ∀ fr ∈ forecast_cashflow plan starting_cash, fr.cash_balance = starting_cash) :=
  ⟨forecastFrom_map_net starting_cash plan,
   forecastFrom_map_month starting_cash plan,
   forecastFrom_map_cash starting_cash plan,
   fun hz => forecastFrom_zero_net starting_cash plan hz⟩

/-- A two-row plan whose rows both have zero net cash flow
(500 + 100 − 200 − 400 = 0; all columns absent reads as 0). -/
def c9DemoPlan : List PlanRow :=
  [{ month := 1, operating_cf := some 500, financing_cf := some 100,
     investment_cf := some 200, loan_repayment := some 400 },
   { month := 2 }]

theorem forecast_cashflow_fold_spec_witness :
    ((forecast_cashflow c9DemoPlan 1000).get
        ⟨0, by simp [forecast_cashflow, forecastFrom, c9DemoPlan]⟩).cash_balance = 1000 :=
  (forecast_cashflow_fold_spec c9DemoPlan 1000).2.2.2
    (by
      intro row hrow
      simp only [c9DemoPlan, List.mem_cons, List.not_mem_nil, or_false] at hrow
      rcases hrow with h | h <;> rw [h] <;> norm_num [rowNetCF])
    _
    (List.get_mem _ _ _)

theorem ratioGuard_null (n d : Option ℚ) (hd : d = none ∨ d = some 0) :
    ratioGuard n d = none := by
  rcases hd with hd | hd <;> subst hd
  · exact ratioGuard_of_none n
  · exact ratioGuard_of_zero n

/-- C1: in `calculate_kpis`, every ratio field of the returned snapshot is
null whenever its denominator is null (`NaN`), zero, or absent — `arpu` and
`repeat_rate` over `active_customers`, `churn_rate` over
`previous_active_customers`, `roas` over `marketing_cost`, `adv_ratio` and
`gross_margin_rate` over the month's sales, `cac` over `new_customers` — and
a division is only ever performed against a non-zero denominator (no
`ZeroDivisionError`, no silent 0). -/
theorem calculate_kpis_null_denominators
    (merged : List MergedRow) (subs : List SubRow) (month? : Option Int)
    (ov : Overrides) (k : KPISnapshot)
    (h : calculate_kpis merged subs month? ov = some k) :
    (((resolvedSubInputs subs (kpiMonth merged month?) ov).active_customers = none ∨
      (resolvedSubInputs subs (kpiMonth merged month?) ov).active_customers = some 0) →
        k.arpu = none ∧ k.repeat_rate = none)
    ∧ (((resolvedSubInputs subs (kpiMonth merged month?) ov).prev_active = none ∨
        (resolvedSubInputs subs (kpiMonth merged month?) ov).prev_active = some 0) →
          k.churn_rate = none)
    ∧ (((resolvedSubInputs subs (kpiMonth merged month?) ov).marketing_cost = none ∨
        (resolvedSubInputs subs (kpiMonth merged month?) ov).marketing_cost = some 0) →
          k.roas = none)
    ∧ (monthlySales merged (kpiMonth merged month?) = 0 →
          k.adv_ratio = none ∧ k.gross_margin_rate = none)
    ∧ (((resolvedSubInputs subs (kpiMonth merged month?) ov).new_customers = none ∨
        (resolvedSubInputs subs (kpiMonth merged month?) ov).new_customers = some 0) →
          k.cac = none)
    ∧ (∀ (n : Option ℚ) (q : ℚ), ratioGuard n (some q) ≠ none → q ≠ 0) := by
  unfold calculate_kpis at h
  split at h
  · exact absurd h (by simp)
  · rw [Option.some.injEq] at h
    subst h
    refine ⟨?_, ?_, ?_, ?_, ?_, ?_⟩
    · intro hd
      exact ⟨ratioGuard_null _ _ hd, ratioGuard_null _ _ hd⟩
    · intro hd
      exact ratioGuard_null _ _ hd
    · intro hd
      exact ratioGuard_null _ _ hd
    · intro hd
      constructor <;> simp only [] <;> rw [hd] <;> exact ratioGuard_of_zero _
    · intro hd
      exact ratioGuard_null _ _ hd
    · intro n q hne hq
      subst hq
      exact hne (ratioGuard_of_zero n)

/-- A single enriched sales row used to instantiate the KPI theorems. -/
def c1DemoRow : MergedRow :=
  { order_month := 0, channel := "自社サイト", product_code := "P1",
    product_name := "商品P", sales_amount := 100, price := none, cost := none,
    cost_rate := 3/10, gross_margin_rate := 7/10, estimated_cost := 30,
    gross_profit := 70, channel_fee := 0, channel_fee_amount := 0,
    net_gross_profit := 70 }

/-- The snapshot `calculate_kpis` produces for `[c1DemoRow]` with no
subscription data and no overrides. -/
def c1DemoKpi : KPISnapshot :=
  { month := 0, sales := 100, gross_profit := 70, active_customers := none,
    new_customers := none, repeat_customers := none,
    cancelled_subscriptions := none, marketing_cost := none, ltv := none,
    arpu := none, repeat_rate := none, churn_rate := none, roas := none,
    adv_ratio := none, gross_margin_rate := some (7/10), cac := none }

theorem calculate_kpis_null_denominators_witness :
    c1DemoKpi.arpu = none ∧ c1DemoKpi.churn_rate = none ∧ c1DemoKpi.cac = none := by
  have h : calculate_kpis [c1DemoRow] [] none {} = some c1DemoKpi := by
    norm_num [calculate_kpis, kpiMonth, maxOrderMonth, monthlySales,
      monthlyNetGross, monthSlice, resolvedSubInputs, resolveKpiField,
      ratioGuard, pyTruthy, pyDiv, c1DemoRow, c1DemoKpi]
  have hmain := calculate_kpis_null_denominators [c1DemoRow] [] none {} c1DemoKpi h
  exact ⟨(hmain.1 (Or.inl rfl)).1, hmain.2.1 (Or.inl rfl),
    hmain.2.2.2.2.1 (Or.inl rfl)⟩

theorem fee_rate_amazon : DEFAULT_CHANNEL_FEE_RATES "Amazon" = some (15/100) := by
  unfold DEFAULT_CHANNEL_FEE_RATES
  rw [if_neg (by decide), if_neg (by decide), if_pos rfl]

theorem fee_rate_own_site : DEFAULT_CHANNEL_FEE_RATES "自社サイト" = some (3/100) := by
  unfold DEFAULT_CHANNEL_FEE_RATES
  rw [if_pos rfl]

/-- A single Amazon-channel sales row (the 15% channel fee makes
`net_gross_profit` differ from `sales_amount - estimated_cost`). -/
def c5Sales : List SalesRow :=
  [{ order_month := 0, channel := "Amazon", product_code := "X1",
     product_name := "商品X", sales_amount := 100 }]

/-- An empty cost table (every sales row stays unmatched). -/
def c5EmptyCost : CostTable := { hasCodeColumn := true, rows := [] }

/-- C5 (counterexample): for the Amazon row with sales 100 and default
cost rate 0.30, the row's pre-fee gross profit `sales − estimated_cost`
is 70, but the snapshot's `gross_profit` is 55 — `calculate_kpis` sums the
`net_gross_profit` column (after the 15% channel fee), not
`sales_amount − estimated_cost` as the claim states. -/
theorem calculate_kpis_gross_profit_cex :
    ((calculate_kpis (merge_sales_and_costs c5Sales c5EmptyCost) [] none {}).map
        fun k => k.gross_profit) = some 55
    ∧ ((merge_sales_and_costs c5Sales c5EmptyCost).map
        fun r => r.sales_amount - r.estimated_cost) = [70]
    ∧ (55 : ℚ) ≠ 70 := by
  refine ⟨?_, ?_, by norm_num⟩
  · norm_num [calculate_kpis, kpiMonth, maxOrderMonth, monthlySales,
      monthlyNetGross, monthSlice, resolvedSubInputs, resolveKpiField,
      ratioGuard, pyTruthy, pyDiv, merge_sales_and_costs, enrichRow,
      fee_rate_amazon, c5Sales, c5EmptyCost]
  · norm_num [merge_sales_and_costs, enrichRow, fee_rate_amazon,
      c5Sales, c5EmptyCost]

/-- C5 (amended): the snapshot's `gross_profit` is the sum of
`net_gross_profit` (gross profit after the channel-fee deduction) over the
month's rows, and `gross_margin_rate` is that sum divided by the month's
sales when the sales are non-zero (null when they are 0). -/
theorem calculate_kpis_gross_profit_net
    (merged : List MergedRow) (subs : List SubRow) (month? : Option Int)
    (ov : Overrides) (k : KPISnapshot)
    (h : calculate_kpis merged subs month? ov = some k) :
    k.month = kpiMonth merged month?
    ∧ k.sales = monthlySales merged k.month
    ∧ k.gross_profit = monthlyNetGross merged k.month
    ∧ (k.sales ≠ 0 → k.gross_margin_rate = some (k.gross_profit / k.sales))
    ∧ (k.sales = 0 → k.gross_margin_rate = none) := by
  unfold calculate_kpis at h
  split at h
  · exact absurd h (by simp)
  · rw [Option.some.injEq] at h
    subst h
    refine ⟨rfl, rfl, rfl, ?_, ?_⟩
    · intro hs
      simp only [ratioGuard, pyTruthy, pyDiv, hs, decide_eq_true_eq]
      simp [hs]
    · intro hs
      simp only [] at hs ⊢
      rw [hs]
      exact ratioGuard_of_zero _

/-- The snapshot of the `c5Sales`/`c5EmptyCost` pipeline. -/
def c5Kpi : KPISnapshot :=
  { month := 0, sales := 100, gross_profit := 55, active_customers := none,
    new_customers := none, repeat_customers := none,
    cancelled_subscriptions := none, marketing_cost := none, ltv := none,
    arpu := none, repeat_rate := none, churn_rate := none, roas := none,
    adv_ratio := none, gross_margin_rate := some (11/20), cac := none }

theorem calculate_kpis_gross_profit_net_witness :
    c5Kpi.gross_profit =
        monthlyNetGross (merge_sales_and_costs c5Sales c5EmptyCost) c5Kpi.month
    ∧ c5Kpi.gross_margin_rate = some (c5Kpi.gross_profit / c5Kpi.sales) := by
  have h : calculate_kpis (merge_sales_and_costs c5Sales c5EmptyCost) [] none {} =
      some c5Kpi := by
    norm_num [calculate_kpis, kpiMonth, maxOrderMonth, monthlySales,
      monthlyNetGross, monthSlice, resolvedSubInputs, resolveKpiField,
      ratioGuard, pyTruthy, pyDiv, merge_sales_and_costs, enrichRow,
      fee_rate_amazon, c5Sales, c5EmptyCost, c5Kpi]
  have hmain := calculate_kpis_gross_profit_net _ [] none {} c5Kpi h
  exact ⟨hmain.2.2.1, hmain.2.2.2.1 (by norm_num [c5Kpi])⟩

/-- A raw cost row whose explicit `cost_rate` 1.2 exceeds the clamp range
(price 100, cost 120). -/
def c3CostRaw : List RawCostRow :=
  [{ product_code := some "X1", product_name := some "商品X",
     price := some 100, cost := some 120, cost_rate := some (6/5) }]

/-- The normalized form of `c3CostRaw` (note
`gross_margin_rate = 1 - 6/5 = -1/5`, computed before any clamping). -/
def c3NormCost : CostRow :=
  { product_code := "X1", product_name := "商品X", category := "未分類",
    price := some 100, cost := some 120, cost_rate := some (6/5),
    gross_margin_rate := some (1 - 6/5) }

/-- The sales row matching `c3NormCost` on `product_code`. -/
def c3SalesRow : SalesRow :=
  { order_month := 0, channel := "自社サイト", product_code := "X1",
    product_name := "商品X", sales_amount := 100 }

def c3Sales : List SalesRow := [c3SalesRow]

def c3CostTable : CostTable :=
  { hasCodeColumn := true, rows := load_cost_workbook c3CostRaw }

/-- C3 (counterexample): merging against the loaded cost table with
`cost_rate` 1.2 clamps `cost_rate` to 0.95 but keeps the cost table's
`gross_margin_rate` −0.2, so the output row violates
`gross_margin_rate = 1 − cost_rate` (1 − 0.95 = 0.05 ≠ −0.2). -/
theorem merge_gross_margin_cex :
    ((merge_sales_and_costs c3Sales c3CostTable).map
        fun r => (r.cost_rate, r.gross_margin_rate)) = [(19/20, -(1/5))]
    ∧ ¬ ((-(1/5) : ℚ) = 1 - 19/20) := by
  refine ⟨?_, by norm_num⟩
  have hmerge : merge_sales_and_costs c3Sales c3CostTable =
      [enrichRow c3SalesRow (some c3NormCost)] := rfl
  rw [hmerge]
  simp only [List.map_cons, List.map_nil, List.cons.injEq, and_true, Prod.mk.injEq]
  constructor
  · show min (max ((6:ℚ)/5) 0) (95/100) = 19/20
    rw [max_eq_left (by norm_num), min_eq_right (by norm_num)]
    norm_num
  · show (1 - (6:ℚ)/5) = -(1/5)
    norm_num

/-- The fields every unmatched (or cost-table-empty) merge row gets:
default `cost_rate` 0.30 and the derived amounts. -/
theorem enrichRow_none_fields (s : SalesRow) :
    (enrichRow s none).cost_rate = 3/10
    ∧ (enrichRow s none).estimated_cost = s.sales_amount * (3/10)
    ∧ (enrichRow s none).gross_profit = s.sales_amount - s.sales_amount * (3/10)
    ∧ (enrichRow s none).gross_margin_rate = 1 - (enrichRow s none).cost_rate := by
  have hcr : (enrichRow s none).cost_rate = 3/10 := by
    show min (max ((3:ℚ)/10) 0) (95/100) = 3/10
    rw [max_eq_left (by norm_num), min_eq_left (by norm_num)]
  refine ⟨hcr, ?_, ?_, rfl⟩
  · show s.sales_amount * (enrichRow s none).cost_rate = s.sales_amount * (3/10)
    rw [hcr]
  · show s.sales_amount - s.sales_amount * (enrichRow s none).cost_rate =
      s.sales_amount - s.sales_amount * (3/10)
    rw [hcr]

/-- Every output row of a merge is `enrichRow` of some sales row and
optional matched cost row. -/
theorem merge_mem_enrich {r : MergedRow} {sales_df : List SalesRow}
    {cost_df : CostTable} (hr : r ∈ merge_sales_and_costs sales_df cost_df) :
    ∃ (s : SalesRow) (c : Option CostRow), r = enrichRow s c := by
  unfold merge_sales_and_costs at hr
  split at hr
  · obtain ⟨s, _, rfl⟩ := List.mem_map.mp hr
    exact ⟨s, none, rfl⟩
  · obtain ⟨s, _, hin⟩ := List.mem_flatMap.mp hr
    have hin' : r ∈ (if (List.filter (joinMatches (selectJoinKey cost_df) s)
          cost_df.rows).isEmpty = true
        then [enrichRow s none]
        else List.map (fun c => enrichRow s (some c))
          (List.filter (joinMatches (selectJoinKey cost_df) s) cost_df.rows)) := hin
    split at hin'
    · rw [List.mem_singleton] at hin'
      exact ⟨s, none, hin'⟩
    · obtain ⟨c, _, rfl⟩ := List.mem_map.mp hin'
      exact ⟨s, some c, rfl⟩

/-- C3 (amended): every output row of `merge_sales_and_costs` has
`cost_rate` clamped into [0, 0.95] (0.30 whenever no cost information
matched), and `gross_margin_rate = 1 − cost_rate` holds for every row whose
merged `gross_margin_rate` was missing — in particular every unmatched row;
a row that carries a `gross_margin_rate` from the cost table keeps that
value unchanged (which can differ from `1 − cost_rate`, see the
counterexample). -/
theorem merge_cost_rate_clamped (sales_df : List SalesRow) (cost_df : CostTable) :
    (∀ r ∈ merge_sales_and_costs sales_df cost_df,
        0 ≤ r.cost_rate ∧ r.cost_rate ≤ 95/100)
    ∧ (∀ s : SalesRow, (enrichRow s none).cost_rate = 3/10
        ∧ (enrichRow s none).gross_margin_rate = 1 - (enrichRow s none).cost_rate)
    ∧ (∀ (s : SalesRow) (c : CostRow), c.gross_margin_rate = none →
        (enrichRow s (some c)).gross_margin_rate = 1 - (enrichRow s (some c)).cost_rate)
    ∧ (∀ (s : SalesRow) (c : CostRow) (g : ℚ), c.gross_margin_rate = some g →
        (enrichRow s (some c)).gross_margin_rate = g) := by
  refine ⟨?_, ?_, ?_, ?_⟩
  · intro r hr
    obtain ⟨s, c, rfl⟩ := merge_mem_enrich hr
    constructor
    · show 0 ≤ min (max _ 0) (95/100)
      exact le_min (le_max_right _ 0) (by norm_num)
    · exact min_le_right _ _
  · intro s
    exact ⟨(enrichRow_none_fields s).1, (enrichRow_none_fields s).2.2.2⟩
  · intro s c hc
    show (c.gross_margin_rate.getD _) = _
    rw [hc]
    rfl
  · intro s c g hc
    show (c.gross_margin_rate.getD _) = g
    rw [hc]
    rfl

theorem merge_cost_rate_clamped_witness :
    (0 ≤ (enrichRow c3SalesRow none).cost_rate
      ∧ (enrichRow c3SalesRow none).cost_rate ≤ 95/100)
    ∧ (enrichRow c3SalesRow none).cost_rate = 3/10 := by
  have hmain := merge_cost_rate_clamped c3Sales c5EmptyCost
  refine ⟨hmain.1 _ ?_, (hmain.2.1 c3SalesRow).1⟩
  rw [show merge_sales_and_costs c3Sales c5EmptyCost = [enrichRow c3SalesRow none] from rfl]
  exact List.mem_singleton_self _

/-- The sales row of the spec's merge scenario (sales_amount 10,000). -/
def c6SalesRow : SalesRow :=
  { order_month := 0, channel := "自社サイト", product_code := "X1",
    product_name := "商品X", sales_amount := 10000 }

def c6Sales : List SalesRow := [c6SalesRow]

/-- A non-empty cost table matching nothing in `c6Sales`. -/
def c6Cost : CostTable :=
  { hasCodeColumn := true,
    rows := [{ product_code := "Z9", product_name := "別商品",
               category := "未分類", price := none, cost := none,
               cost_rate := some (1/2), gross_margin_rate := some (1/2) }] }

/-- C6: `merge_sales_and_costs` joins on `product_code`, falling back to
`product_name` exactly when the cost table's `product_code` column is
missing or entirely the sentinel `"NA"`; every sales row the join leaves
unmatched survives once with default `cost_rate` 0.30,
`estimated_cost = 0.3 × sales_amount` and
`gross_profit = 0.7 × sales_amount`; in particular a row with
sales 10,000 merged against a cost table matching nothing yields
`estimated_cost` 3,000 and `gross_profit` 7,000. -/
theorem merge_join_key_and_default :
    (∀ cost_df : CostTable,
        (selectJoinKey cost_df = JoinKey.name ↔
          (¬ cost_df.hasCodeColumn = true ∨ ∀ c ∈ cost_df.rows, c.product_code = "NA")))
    ∧ (∀ (sales_df : List SalesRow) (cost_df : CostTable) (s : SalesRow),
        s ∈ sales_df →
        (cost_df.rows.filter (joinMatches (selectJoinKey cost_df) s)).isEmpty = true →
        enrichRow s none ∈ merge_sales_and_costs sales_df cost_df
          ∧ (enrichRow s none).cost_rate = 3/10
          ∧ (enrichRow s none).estimated_cost = s.sales_amount * (3/10)
          ∧ (enrichRow s none).gross_profit = s.sales_amount - s.sales_amount * (3/10))
    ∧ ((merge_sales_and_costs c6Sales c6Cost).map
        fun r => (r.cost_rate, r.estimated_cost, r.gross_profit)) =
      [(3/10, 3000, 7000)] := by
  refine ⟨?_, ?_, ?_⟩
  · intro cost_df
    unfold selectJoinKey
    by_cases hcode : cost_df.hasCodeColumn = true
    · rw [if_pos hcode]
      by_cases hall : cost_df.rows.all (fun c => c.product_code = "NA") = true
      · rw [if_pos hall]
        simp only [true_iff]
        exact Or.inr (fun c hc => by
          have := List.all_eq_true.mp hall c hc
          exact decide_eq_true_eq.mp this)
      · rw [if_neg hall]
        constructor
        · intro hcontra
          exact absurd hcontra (by simp)
        · intro hor
          rcases hor with hnc | hna
          · exact absurd hcode hnc
          · exact absurd (List.all_eq_true.mpr fun c hc =>
              decide_eq_true (hna c hc)) hall
    · rw [if_neg hcode]
      simp only [true_iff]
      exact Or.inl hcode
  · intro sales_df cost_df s hs hfilter
    refine ⟨?_, (enrichRow_none_fields s).1, (enrichRow_none_fields s).2.1,
      (enrichRow_none_fields s).2.2.1⟩
    unfold merge_sales_and_costs
    split
    · exact List.mem_map.mpr ⟨s, hs, rfl⟩
    · refine List.mem_flatMap.mpr ⟨s, hs, ?_⟩
      show enrichRow s none ∈ (if (List.filter (joinMatches (selectJoinKey cost_df) s)
            cost_df.rows).isEmpty = true
          then [enrichRow s none]
          else List.map (fun c => enrichRow s (some c))
            (List.filter (joinMatches (selectJoinKey cost_df) s) cost_df.rows))
      rw [if_pos hfilter]
      exact List.mem_singleton_self _
  · have hmerge : merge_sales_and_costs c6Sales c6Cost = [enrichRow c6SalesRow none] := rfl
    rw [hmerge]
    simp only [List.map_cons, List.map_nil, List.cons.injEq, and_true, Prod.mk.injEq]
    refine ⟨(enrichRow_none_fields c6SalesRow).1, ?_, ?_⟩
    · rw [(enrichRow_none_fields c6SalesRow).2.1]
      norm_num [c6SalesRow]
    · rw [(enrichRow_none_fields c6SalesRow).2.2.1]
      norm_num [c6SalesRow]

theorem merge_join_key_and_default_witness :
    (enrichRow c6SalesRow none ∈ merge_sales_and_costs c6Sales c6Cost
      ∧ (enrichRow c6SalesRow none).cost_rate = 3/10)
    ∧ (selectJoinKey c6Cost = JoinKey.name ↔
        (¬ c6Cost.hasCodeColumn = true ∨ ∀ c ∈ c6Cost.rows, c.product_code = "NA")) := by
  have h := merge_join_key_and_default.2.1 c6Sales c6Cost c6SalesRow
    (List.mem_singleton_self _) (by decide)
  exact ⟨⟨h.1, h.2.1⟩, merge_join_key_and_default.1 c6Cost⟩

theorem summarize_getD (df : List PeriodInputRow) (freq : Freq) (i : Nat)
    (hi : i < (summarize_sales_by_period df freq).length) :
    (summarize_sales_by_period df freq).getD i dummySummaryRow =
      summaryRowAt df freq
        (distinctAsc (df.map fun r => toPeriod freq r.order_date)) i := by
  unfold summarize_sales_by_period at hi ⊢
  by_cases hne : df.isEmpty
  · rw [if_pos hne] at hi
    simp at hi
  · rw [if_neg hne] at hi ⊢
    rw [List.getD_eq_getElem?_getD, List.getElem?_map,
      List.getElem?_range (by simpa using hi)]
    rfl

/-- C2: `summarize_sales_by_period` computes the year-over-year delta of a
bucket positionally against the bucket `PERIOD_YOY_LAG[freq]` places earlier
in the sorted summary — lag 12 for monthly, 52 for weekly, 4 for quarterly,
1 for yearly buckets — with `yoy` null for every bucket with fewer than
`lag` prior buckets or whose lagged sales value is zero, and equal to
`(current − lagged) / lagged` otherwise. -/
theorem summarize_sales_by_period_yoy_lag :
    (PERIOD_YOY_LAG Freq.M = 12 ∧ PERIOD_YOY_LAG Freq.WMON = 52
      ∧ PERIOD_YOY_LAG Freq.Q = 4 ∧ PERIOD_YOY_LAG Freq.Y = 1)
    ∧ ∀ (freq : Freq) (df : List PeriodInputRow) (i : Nat),
        i < (summarize_sales_by_period df freq).length →
        ((summarize_sales_by_period df freq).getD i dummySummaryRow).sales_yoy =
          (if PERIOD_YOY_LAG freq ≤ i then
            (if ((summarize_sales_by_period df freq).getD (i - PERIOD_YOY_LAG freq)
                  dummySummaryRow).sales_amount = 0 then none
             else some
               ((((summarize_sales_by_period df freq).getD i dummySummaryRow).sales_amount
                  - ((summarize_sales_by_period df freq).getD (i - PERIOD_YOY_LAG freq)
                      dummySummaryRow).sales_amount)
                / ((summarize_sales_by_period df freq).getD (i - PERIOD_YOY_LAG freq)
                    dummySummaryRow).sales_amount))
           else none) := by
  refine ⟨⟨rfl, rfl, rfl, rfl⟩, ?_⟩
  intro freq df i hi
  have hi' : i - PERIOD_YOY_LAG freq < (summarize_sales_by_period df freq).length :=
    Nat.lt_of_le_of_lt (Nat.sub_le i _) hi
  rw [summarize_getD df freq i hi, summarize_getD df freq _ hi']
  have hlag : PERIOD_YOY_LAG freq ≠ 0 := by cases freq <;> simp [PERIOD_YOY_LAG]
  simp only [summaryRowAt]
  rw [if_pos hlag]
  by_cases hle : PERIOD_YOY_LAG freq ≤ i
  · rw [if_pos hle, if_pos hle]
    set s0 := bucketSum df freq
      ((distinctAsc (df.map fun r => toPeriod freq r.order_date)).getD
        (i - PERIOD_YOY_LAG freq) 0) (fun r => r.sales_amount) with hs0
    by_cases hz : s0 = 0
    · rw [if_pos hz]
      simp [fracDelta, hz]
    · rw [if_neg hz]
      simp [fracDelta, hz]
  · rw [if_neg hle, if_neg hle]
    rfl

/-- Two enriched rows a calendar year apart (2023-01 and 2024-01). -/
def c2Rows : List PeriodInputRow :=
  [{ order_date := { y := 2023, m := 1, d := 15 }, sales_amount := 100,
     gross_profit := 60, net_gross_profit := 55 },
   { order_date := { y := 2024, m := 1, d := 20 }, sales_amount := 110,
     gross_profit := 66, net_gross_profit := 60 }]

theorem summarize_sales_by_period_yoy_lag_witness :
    ((summarize_sales_by_period c2Rows Freq.M).getD 1 dummySummaryRow).sales_yoy = none
    ∧ ((summarize_sales_by_period c2Rows Freq.Y).getD 1 dummySummaryRow).sales_yoy =
        some (1/10) := by
  have hM := summarize_sales_by_period_yoy_lag.2 Freq.M c2Rows 1 (by decide)
  have hY := summarize_sales_by_period_yoy_lag.2 Freq.Y c2Rows 1 (by decide)
  constructor
  · rw [hM, if_neg (by norm_num [PERIOD_YOY_LAG])]
  · rw [hY]
    have h0 : ((summarize_sales_by_period c2Rows Freq.Y).getD
        (1 - PERIOD_YOY_LAG Freq.Y) dummySummaryRow).sales_amount = 100 := by
      norm_num [PERIOD_YOY_LAG, summarize_sales_by_period, summaryRowAt,
        bucketSum, distinctAsc, insertAsc, toPeriod, c2Rows, fracDelta]
    have h1 : ((summarize_sales_by_period c2Rows Freq.Y).getD 1
        dummySummaryRow).sales_amount = 110 := by
      norm_num [PERIOD_YOY_LAG, summarize_sales_by_period, summaryRowAt,
        bucketSum, distinctAsc, insertAsc, toPeriod, c2Rows, fracDelta]
    rw [if_pos (by norm_num [PERIOD_YOY_LAG]), h0, h1, if_neg (by norm_num)]
    norm_num

/-- C10 (counterexample): a KPI summary whose `gross_margin_rate` is present
and equal to 0 breaches the margin threshold (0 < 60%), yet `build_alerts`
appends no message — Python's falsy check treats the present value 0 like
missing data. -/
theorem build_alerts_zero_margin_cex :
    build_alerts [] { churn_rate := none, gross_margin_rate := some 0 } [] none = []
    ∧ ((0 : ℚ) < 6/10) := by
  constructor
  · norm_num [build_alerts, defaultThresholds, minCashBalance]
  · norm_num

/-- The revenue-drop alert of the amended claim: with at least two monthly
rows, one message when the latest month's sales fall more than 30% below the
previous month's (skipped when the previous value is 0, which the code
treats like missing data). -/
def specRevenueDropAlerts (monthly : List ℚ) : List Alert :=
  if 2 ≤ monthly.length then
    let latest := monthly.getD (monthly.length - 1) 0
    let prev := monthly.getD (monthly.length - 2) 0
    if latest < prev * (1 - 3/10) ∧ prev ≠ 0 then
      [Alert.revenueDrop ((latest - prev) / prev)]
    else []
  else []

/-- The churn alert of the amended claim: one message when `churn_rate` is
present, above 5% and non-zero. -/
def specChurnAlerts (kpi : KpiAlertView) : List Alert :=
  match kpi.churn_rate with
  | some c => if 5/100 < c ∧ c ≠ 0 then [Alert.highChurn c] else []
  | none => []

/-- The margin alert of the amended claim: one message when
`gross_margin_rate` is present, below 60% and non-zero (a present 0 is
skipped like missing data). -/
def specMarginAlerts (kpi : KpiAlertView) : List Alert :=
  match kpi.gross_margin_rate with
  | some g => if g < 6/10 ∧ g ≠ 0 then [Alert.lowMargin g] else []
  | none => []

/-- The cash-shortfall alert of the amended claim: one message when the
forecast is non-empty and its minimum balance is negative. -/
def specCashAlerts (cash : List ForecastRow) : List Alert :=
  if minCashBalance cash < 0 ∧ cash ≠ [] then [Alert.cashShortfall] else []

/-- C10 (amended): with default thresholds, `build_alerts` emits exactly one
message per breached check, in the fixed order revenue drop / churn / margin
/ cash shortfall, and silently skips a check whose required data is absent —
where the revenue, churn and margin checks also treat a zero (or `NaN`)
previous-month sales / churn rate / gross-margin rate as absent. -/
theorem build_alerts_default_spec (monthly : List ℚ) (kpi : KpiAlertView)
    (cash : List ForecastRow) :
    build_alerts monthly kpi cash none =
      specRevenueDropAlerts monthly ++ specChurnAlerts kpi
        ++ specMarginAlerts kpi ++ specCashAlerts cash := by
  unfold build_alerts specRevenueDropAlerts specChurnAlerts specMarginAlerts
    specCashAlerts
  dsimp only [Option.getD, defaultThresholds]
  obtain ⟨kc, kg⟩ := kpi
  cases kc <;> cases kg <;>
    simp only [List.isEmpty_iff, ne_eq, and_comm]
